import Mathlib

/-!
OCPP charging backend — verification of the specification's claims.

A shallow embedding of the charging-session backend: the persistent data
model (charge points, charging intents, charge sessions, meter samples),
the OCPP action handlers (`StartTransaction`, `StopTransaction`,
`StatusNotification`, `MeterValues` session binding), the in-memory
connection registry with its pending-call table, and the payment flow
(intent creation, Stripe webhook signature verification, session creation
with stop-codes).

Python floats on the meter path are modelled as `Rat` (the arithmetic the
handlers perform — subtraction, comparison, division by 1000 — is exact on
the values involved), timestamps as `Int` epoch values, nullable columns as
`Option`, SQL result rows as Lean lists in query order, and dictionaries
from JSON bodies by an explicit `JVal` type.  `hashlib.sha256`,
`hmac.new(..., hashlib.sha256)` and `json.loads` are given executable
models below.
-/

namespace Ocpp

/-! ## Bit-level helpers and SHA-256 (model of `hashlib.sha256`) -/

def mod32 (n : Nat) : Nat := n % 4294967296

def rotr32 (n x : Nat) : Nat := mod32 ((x >>> n) ||| (x <<< (32 - n)))

def not32 (x : Nat) : Nat := x ^^^ 4294967295

def sha256Ch (x y z : Nat) : Nat := (x &&& y) ^^^ ((not32 x) &&& z)

def sha256Maj (x y z : Nat) : Nat := (x &&& y) ^^^ (x &&& z) ^^^ (y &&& z)

def bigSigma0 (x : Nat) : Nat := (rotr32 2 x) ^^^ (rotr32 13 x) ^^^ (rotr32 22 x)

def bigSigma1 (x : Nat) : Nat := (rotr32 6 x) ^^^ (rotr32 11 x) ^^^ (rotr32 25 x)

def smallSigma0 (x : Nat) : Nat := (rotr32 7 x) ^^^ (rotr32 18 x) ^^^ (x >>> 3)

def smallSigma1 (x : Nat) : Nat := (rotr32 17 x) ^^^ (rotr32 19 x) ^^^ (x >>> 10)

def sha256K : List Nat :=
  [1116352408, 1899447441, 3049323471, 3921009573, 961987163, 1508970993,
   2453635748, 2870763221, 3624381080, 310598401, 607225278, 1426881987,
   1925078388, 2162078206, 2614888103, 3248222580, 3835390401, 4022224774,
   264347078, 604807628, 770255983, 1249150122, 1555081692, 1996064986,
   2554220882, 2821834349, 2952996808, 3210313671, 3336571891, 3584528711,
   113926993, 338241895, 666307205, 773529912, 1294757372, 1396182291,
   1695183700, 1986661051, 2177026350, 2456956037, 2730485921, 2820302411,
   3259730800, 3345764771, 3516065817, 3600352804, 4094571909, 275423344,
   430227734, 506948616, 659060556, 883997877, 958139571, 1322822218,
   1537002063, 1747873779, 1955562222, 2024104815, 2227730452, 2361852424,
   2428436474, 2756734187, 3204031479, 3329325298]

/-- Working state: the eight 32-bit hash registers. -/
structure H8 where
  a : Nat
  b : Nat
  c : Nat
  d : Nat
  e : Nat
  f : Nat
  g : Nat
  h : Nat
deriving Repr, DecidableEq

def sha256Init : H8 :=
  { a := 1779033703, b := 3144134277, c := 1013904242, d := 2773480762,
    e := 1359893119, f := 2600822924, g := 528734635, h := 1541459225 }

def bytesToWords : List Nat → List Nat
  | b0 :: b1 :: b2 :: b3 :: rest =>
      (b0 * 16777216 + b1 * 65536 + b2 * 256 + b3) :: bytesToWords rest
  | _ => []

/-- Big-endian encoding of `n` on a given number of bytes. -/
def natToBytesBE : Nat → Nat → List Nat
  | 0, _ => []
  | k + 1, n => natToBytesBE k (n / 256) ++ [n % 256]

def sha256Pad (msg : List Nat) : List Nat :=
  let L := msg.length
  let k := (64 + 55 - L % 64) % 64
  msg ++ [128] ++ List.replicate k 0 ++ natToBytesBE 8 (8 * L)

def chunks64Aux : Nat → List Nat → List (List Nat)
  | _, [] => []
  | 0, _ => []
  | fuel + 1, x :: rest => (x :: rest.take 63) :: chunks64Aux fuel (rest.drop 63)

/-- Split into 64-byte blocks (the fuel only bounds recursion depth; one
unit per block suffices since each step consumes at least one byte). -/
def chunks64 (l : List Nat) : List (List Nat) := chunks64Aux l.length l

/-- The next message-schedule word, computed from the words so far. -/
def schedWord (w : List Nat) : Nat :=
  let i := w.length
  mod32 (smallSigma1 (w.getD (i - 2) 0) + w.getD (i - 7) 0 + smallSigma0 (w.getD (i - 15) 0) + w.getD (i - 16) 0)

def extendW : Nat → List Nat → List Nat
  | 0, w => w
  | n + 1, w => extendW n (w ++ [schedWord w])

def compressStep (st : H8) (kw : Nat × Nat) : H8 :=
  let t1 := mod32 (st.h + bigSigma1 st.e + sha256Ch st.e st.f st.g + kw.1 + kw.2)
  let t2 := mod32 (bigSigma0 st.a + sha256Maj st.a st.b st.c)
  { a := mod32 (t1 + t2), b := st.a, c := st.b, d := st.c,
    e := mod32 (st.d + t1), f := st.e, g := st.f, h := st.g }

def compressBlock (h0 : H8) (block : List Nat) : H8 :=
  let w := extendW 48 (bytesToWords block)
  let st := (sha256K.zip w).foldl compressStep h0
  { a := mod32 (h0.a + st.a), b := mod32 (h0.b + st.b), c := mod32 (h0.c + st.c),
    d := mod32 (h0.d + st.d), e := mod32 (h0.e + st.e), f := mod32 (h0.f + st.f),
    g := mod32 (h0.g + st.g), h := mod32 (h0.h + st.h) }

def sha256 (msg : List Nat) : List Nat :=
  let st := (chunks64 (sha256Pad msg)).foldl compressBlock sha256Init
  natToBytesBE 4 st.a ++ natToBytesBE 4 st.b ++ natToBytesBE 4 st.c ++ natToBytesBE 4 st.d ++
  natToBytesBE 4 st.e ++ natToBytesBE 4 st.f ++ natToBytesBE 4 st.g ++ natToBytesBE 4 st.h

/-! ## Hex, UTF-8 and HMAC-SHA256 (model of `hmac.new(..., hashlib.sha256)`) -/

def hexDigitChar (n : Nat) : Char := Char.ofNat (if n < 10 then 48 + n else 87 + n)

def byteToHex (b : Nat) : List Char := [hexDigitChar (b / 16), hexDigitChar (b % 16)]

def bytesToHex (bs : List Nat) : String := String.mk (bs.foldr (fun b acc => byteToHex b ++ acc) [])

def sha256Hex (msg : List Nat) : String := bytesToHex (sha256 msg)

def utf8EncodeCharBytes (c : Char) : List Nat :=
  let n := c.toNat
  if n < 128 then [n]
  else if n < 2048 then [192 + n / 64, 128 + n % 64]
  else if n < 65536 then [224 + n / 4096, 128 + (n / 64) % 64, 128 + n % 64]
  else [240 + n / 262144, 128 + (n / 4096) % 64, 128 + (n / 64) % 64, 128 + n % 64]

def utf8Bytes (s : String) : List Nat := s.data.foldr (fun c acc => utf8EncodeCharBytes c ++ acc) []

def hmacSha256 (key msg : List Nat) : List Nat :=
  let k0 := if key.length > 64 then sha256 key else key
  let k := k0 ++ List.replicate (64 - k0.length) 0
  let ipadded := k.map (fun b => b ^^^ 0x36)
  let opadded := k.map (fun b => b ^^^ 0x5c)
  sha256 (opadded ++ sha256 (ipadded ++ msg))

def hmacSha256Hex (key msg : List Nat) : String := bytesToHex (hmacSha256 key msg)

end Ocpp

namespace Ocpp

/-! ## JSON values and a model of `json.loads` -/

/-- A parsed JSON value, as produced by Python's `json.loads`.  `num` keeps
track of whether the literal was an integer (Python distinguishes `int`
from `float`); objects are association lists in which a duplicated key has
already been collapsed to its last occurrence, as `dict` does. -/
inductive JVal where
  | null
  | bool (b : Bool)
  | num (q : Rat) (isInt : Bool)
  | str (s : String)
  | arr (xs : List JVal)
  | obj (fs : List (String × JVal))

instance : Inhabited JVal := ⟨JVal.null⟩

def skipWs : List Char → List Char
  | [] => []
  | c :: cs =>
      if c.toNat == 32 || c.toNat == 9 || c.toNat == 10 || c.toNat == 13 then skipWs cs
      else c :: cs

def digitsToNat (ds : List Char) : Nat := ds.foldl (fun a c => a * 10 + (c.toNat - 48)) 0

def hexDigitVal (c : Char) : Option Nat :=
  if c.isDigit then some (c.toNat - 48)
  else if 97 ≤ c.toNat && c.toNat ≤ 102 then some (c.toNat - 87)
  else if 65 ≤ c.toNat && c.toNat ≤ 70 then some (c.toNat - 55)
  else none

/-- Parse a JSON number (RFC 8259 grammar, as the Python parser accepts it). -/
def pNum (cs : List Char) : Option (JVal × List Char) :=
  let (negSign, cs1) :=
    match cs with
    | c :: rest => if c.toNat == 45 then (true, rest) else (false, cs)
    | [] => (false, cs)
  let (intDs, cs2) := cs1.span Char.isDigit
  if intDs.isEmpty then none
  else if intDs.length > 1 && intDs.headD ' ' == '0' then none
  else
    let (fracDs, cs3) :=
      match cs2 with
      | c :: rest =>
          if c.toNat == 46 then
            let (ds, r) := rest.span Char.isDigit
            (some ds, r)
          else (none, cs2)
      | [] => (none, cs2)
    match fracDs with
    | some ds =>
        if ds.isEmpty then none else pNumExp negSign intDs (some ds) cs3
    | none => pNumExp negSign intDs none cs3
where
  pNumExp (negSign : Bool) (intDs : List Char) (fracDs : Option (List Char)) (cs : List Char) :
      Option (JVal × List Char) :=
    let (expVal, hadExp, cs') :=
      match cs with
      | c :: rest =>
          if c.toNat == 101 || c.toNat == 69 then
            let (esign, rest1) :=
              match rest with
              | e :: r => if e.toNat == 45 then (true, r) else if e.toNat == 43 then (false, r) else (false, rest)
              | [] => (false, rest)
            let (eds, rest2) := rest1.span Char.isDigit
            if eds.isEmpty then (none, true, cs)
            else (some ((if esign then -1 else 1) * (digitsToNat eds : Int)), true, rest2)
          else (some 0, false, cs)
      | [] => (some 0, false, cs)
    match expVal with
    | none => none
    | some e =>
        let fds := fracDs.getD []
        let mantissa : Rat := (digitsToNat intDs : Rat) + (digitsToNat fds : Rat) / ((10 : Rat) ^ fds.length)
        let scaled : Rat :=
          if 0 ≤ e then mantissa * (10 : Rat) ^ e.toNat else mantissa / (10 : Rat) ^ (-e).toNat
        let q := if negSign then -scaled else scaled
        some (JVal.num q (fracDs.isNone && !hadExp), cs')

/-- Collapse duplicate keys: later occurrences overwrite earlier ones, as in
`dict` construction.  The surviving entry keeps the position of the value
list's last occurrence only through lookups, so it is enough to drop
earlier duplicates. -/
def dedupKeys (fs : List (String × JVal)) : List (String × JVal) :=
  match fs with
  | [] => []
  | (k, v) :: rest =>
      if rest.any (fun kv => kv.1 == k) then dedupKeys rest else (k, v) :: dedupKeys rest

mutual

def pVal : Nat → List Char → Option (JVal × List Char)
  | 0, _ => none
  | fuel + 1, cs0 =>
    let cs := skipWs cs0
    match cs with
    | [] => none
    | c :: rest =>
      if c.toNat == 123 then
        match skipWs rest with
        | c2 :: rest2 =>
            if c2.toNat == 125 then some (JVal.obj [], rest2)
            else (pMembers fuel (c2 :: rest2)).map (fun p => (JVal.obj (dedupKeys p.1), p.2))
        | [] => none
      else if c.toNat == 91 then
        match skipWs rest with
        | c2 :: rest2 =>
            if c2.toNat == 93 then some (JVal.arr [], rest2)
            else (pItems fuel (c2 :: rest2)).map (fun p => (JVal.arr p.1, p.2))
        | [] => none
      else if c.toNat == 34 then
        (pStringRest fuel rest).map (fun p => (JVal.str p.1, p.2))
      else if c.toNat == 116 then
        match rest with
        | r :: u :: e :: rest2 =>
            if r.toNat == 114 && u.toNat == 117 && e.toNat == 101 then some (JVal.bool true, rest2) else none
        | _ => none
      else if c.toNat == 102 then
        match rest with
        | a :: l :: s :: e :: rest2 =>
            if a.toNat == 97 && l.toNat == 108 && s.toNat == 115 && e.toNat == 101 then
              some (JVal.bool false, rest2)
            else none
        | _ => none
      else if c.toNat == 110 then
        match rest with
        | u :: l1 :: l2 :: rest2 =>
            if u.toNat == 117 && l1.toNat == 108 && l2.toNat == 108 then some (JVal.null, rest2) else none
        | _ => none
      else pNum cs

def pMembers : Nat → List Char → Option (List (String × JVal) × List Char)
  | 0, _ => none
  | fuel + 1, cs0 =>
    match skipWs cs0 with
    | c :: rest =>
      if c.toNat == 34 then
        match pStringRest fuel rest with
        | some (k, r1) =>
          (match skipWs r1 with
           | c2 :: r2 =>
             if c2.toNat == 58 then
               match pVal fuel r2 with
               | some (v, r3) =>
                 (match skipWs r3 with
                  | c3 :: r4 =>
                    if c3.toNat == 44 then (pMembers fuel r4).map (fun p => ((k, v) :: p.1, p.2))
                    else if c3.toNat == 125 then some ([(k, v)], r4)
                    else none
                  | [] => none)
               | none => none
             else none
           | [] => none)
        | none => none
      else none
    | [] => none

def pItems : Nat → List Char → Option (List JVal × List Char)
  | 0, _ => none
  | fuel + 1, cs0 =>
    match pVal fuel cs0 with
    | some (v, r) =>
      (match skipWs r with
       | c :: r2 =>
         if c.toNat == 44 then (pItems fuel r2).map (fun p => (v :: p.1, p.2))
         else if c.toNat == 93 then some ([v], r2)
         else none
       | [] => none)
    | none => none

def pStringRest : Nat → List Char → Option (String × List Char)
  | 0, _ => none
  | fuel + 1, cs =>
    match cs with
    | [] => none
    | c :: rest =>
      if c.toNat == 34 then some ("", rest)
      else if c.toNat == 92 then
        match rest with
        | [] => none
        | e :: rest2 =>
          let esc : Option (Char × List Char) :=
            if e.toNat == 34 then some (Char.ofNat 34, rest2)
            else if e.toNat == 92 then some (Char.ofNat 92, rest2)
            else if e.toNat == 47 then some (Char.ofNat 47, rest2)
            else if e.toNat == 98 then some (Char.ofNat 8, rest2)
            else if e.toNat == 102 then some (Char.ofNat 12, rest2)
            else if e.toNat == 110 then some (Char.ofNat 10, rest2)
            else if e.toNat == 114 then some (Char.ofNat 13, rest2)
            else if e.toNat == 116 then some (Char.ofNat 9, rest2)
            else if e.toNat == 117 then
              match rest2 with
              | h1 :: h2 :: h3 :: h4 :: rest3 =>
                match hexDigitVal h1, hexDigitVal h2, hexDigitVal h3, hexDigitVal h4 with
                | some a, some b, some c', some d =>
                    some (Char.ofNat (a * 4096 + b * 256 + c' * 16 + d), rest3)
                | _, _, _, _ => none
              | _ => none
            else none
          match esc with
          | some (ch, r) => (pStringRest fuel r).map (fun p => (String.mk (ch :: p.1.data), p.2))
          | none => none
      else (pStringRest fuel rest).map (fun p => (String.mk (c :: p.1.data), p.2))

end

/-- Model of `json.loads`: `none` when the body raises `JSONDecodeError`. -/
def jsonLoads (s : String) : Option JVal :=
  match pVal (2 * s.data.length + 16) s.data with
  | some (v, rest) => if (skipWs rest).isEmpty then some v else none
  | none => none

/-! ## Python value semantics used by the handlers -/

/-- Python truthiness of a JSON-derived value. -/
def jTruthy : JVal → Bool
  | .null => false
  | .bool b => b
  | .num q _ => decide (q ≠ 0)
  | .str s => !s.isEmpty
  | .arr xs => !xs.isEmpty
  | .obj fs => !fs.isEmpty

/-- Python `d.get(k)` on a parsed JSON object. -/
def jobjGet (fs : List (String × JVal)) (k : String) : Option JVal :=
  (fs.find? (fun kv => kv.1 == k)).map (fun kv => kv.2)

/-- Python `x or ...` applied to the result of a `.get`: falsy values are
replaced by an empty object. -/
def orEmptyObj (v : Option JVal) : JVal :=
  match v with
  | some x => if jTruthy x then x else JVal.obj []
  | none => JVal.obj []

/-- A value supports `.get` only when it is a `dict`; anything else makes
the handler raise `AttributeError`. -/
def asObj : JVal → Option (List (String × JVal))
  | .obj fs => some fs
  | _ => none

/-! ## Reducible string primitives

`String.trim`, `String.toLower`, `String.toUpper`, `String.startsWith`,
`String.splitOn` and `String.drop` are defined by well-founded recursion in
core and do not reduce inside the kernel, so the handlers use these
`List Char`-based equivalents (exact on the ASCII data the backend
processes). -/

def isPySpace (c : Char) : Bool :=
  c.toNat == 32 || c.toNat == 9 || c.toNat == 10 || c.toNat == 13 || c.toNat == 11 || c.toNat == 12

def strTrim (s : String) : String :=
  String.mk (((s.data.dropWhile isPySpace).reverse.dropWhile isPySpace).reverse)

def asciiLowerChar (c : Char) : Char :=
  if 65 ≤ c.toNat && c.toNat ≤ 90 then Char.ofNat (c.toNat + 32) else c

def asciiUpperChar (c : Char) : Char :=
  if 97 ≤ c.toNat && c.toNat ≤ 122 then Char.ofNat (c.toNat - 32) else c

def strLower (s : String) : String := String.mk (s.data.map asciiLowerChar)

def strUpper (s : String) : String := String.mk (s.data.map asciiUpperChar)

def strStartsWith (s pre : String) : Bool := pre.data.isPrefixOf s.data

def strDrop (s : String) (n : Nat) : String := String.mk (s.data.drop n)

def splitCommaAux : List Char → List Char → List (List Char)
  | [], acc => [acc.reverse]
  | c :: cs, acc =>
      if c.toNat == 44 then acc.reverse :: splitCommaAux cs []
      else splitCommaAux cs (c :: acc)

/-- Python `s.split(",")`. -/
def strSplitComma (s : String) : List String := (splitCommaAux s.data []).map String.mk

/-- Python `int(float)` truncates toward zero. -/
def pyTrunc (q : Rat) : Int := q.num.tdiv (q.den : Int)

/-- Python `int(str)`: strip surrounding whitespace, optional sign, decimal digits.
(The numeric-literal underscore of Python 3.6+ is not modelled; no caller
produces it.) -/
def pyIntOfStr (s : String) : Option Int :=
  let t := (strTrim s).data
  let (neg, ds) :=
    match t with
    | c :: rest =>
        if c.toNat == 45 then (true, rest) else if c.toNat == 43 then (false, rest) else (false, t)
    | [] => (false, t)
  if ds.isEmpty || !(ds.all (fun c => c.isDigit)) then none
  else some ((if neg then -1 else 1) * (digitsToNat ds : Int))

/-- Python `int(x)` on a JSON-derived value; `none` when Python raises. -/
def pyIntOfJVal : JVal → Option Int
  | .num q isInt => some (if isInt then q.num else pyTrunc q)
  | .str s => pyIntOfStr s
  | .bool b => some (if b then 1 else 0)
  | _ => none

/-- Python `str(x)` on a JSON-derived value.  Container reprs are not modelled (no
claim exercises them); float repr is approximated by the rational's repr. -/
def pyStrJ : JVal → String
  | .str s => s
  | .num q isInt => if isInt then toString q.num else toString q
  | .bool b => if b then "True" else "False"
  | .null => "None"
  | .arr _ => ""
  | .obj _ => ""

/-- Model of `_normalize_cp_status`: a non-empty string is stripped and lowercased,
everything else becomes `"unknown"`. -/
def normalizeCpStatus (v : Option JVal) : String :=
  match v with
  | some (.str s) => if strTrim s == "" then "unknown" else strLower (strTrim s)
  | _ => "unknown"

/-! ## Persistent data model (`app/db/models.py`)

Rows keep the columns the handlers read or write; server-side bookkeeping
columns (`created_at`, `updated_at` on rows where no handler reads them
back) are kept only where a claim touches them.  Query results are lists in
table order; `LIMIT 1` takes the first match, `ORDER BY started_at DESC`
is modelled by a stable insertion sort (ties are backend-defined in SQL and
resolved here in favour of the earlier row). -/

structure ChargePoint where
  id : Nat
  ocpp_id : String
  vendor : Option String := none
  model : Option String := none
  serial_number : Option String := none
  firmware_version : Option String := none
  status : String
  last_seen_at : Option Int := none
deriving Repr, DecidableEq

structure ChargeSession where
  id : Nat
  charge_point_id : Nat
  connector_id : Option Int := none
  ocpp_transaction_id : Option String := none
  user_tag : Option String := none
  started_at : Int
  finished_at : Option Int := none
  meter_start_wh : Option Rat := none
  meter_stop_wh : Option Rat := none
  energy_kwh : Option Rat := none
  cost_huf : Option Rat := none
  anonymous_email : Option String := none
  intent_id : Option Nat := none
  stop_code_hash : Option String := none
deriving Repr, DecidableEq

structure MeterSample where
  charge_point_id : Nat
  session_id : Option Nat := none
  connector_id : Option Int := none
  ts : Int
  energy_wh_total : Option Rat := none
  power_w : Option Rat := none
  current_a : Option Rat := none
  created_at : Int := 0
deriving Repr, DecidableEq

structure ChargingIntent where
  id : Nat
  charge_point_id : Nat
  connector_id : Int
  anonymous_email : String
  status : String
  hold_amount_huf : Int
  payment_provider : Option String := none
  payment_provider_ref : Option String := none
  cancel_reason : Option String := none
  last_error : Option String := none
  expires_at : Int
  created_at : Int := 0
  updated_at : Int := 0
deriving Repr, DecidableEq

structure DB where
  charge_points : List ChargePoint := []
  sessions : List ChargeSession := []
  samples : List MeterSample := []
  intents : List ChargingIntent := []
  next_session_id : Nat := 1
  next_intent_id : Nat := 1
deriving Repr, DecidableEq

/-- The query `SELECT ... WHERE ChargePoint.ocpp_id == cp_id` (`scalar_one_or_none`). -/
def findCP (db : DB) (cpId : String) : Option ChargePoint :=
  db.charge_points.find? (fun c => c.ocpp_id == cpId)

/-- The query `SELECT ... WHERE ChargePoint.id == pk`. -/
def findCPByPk (db : DB) (pk : Nat) : Option ChargePoint :=
  db.charge_points.find? (fun c => c.id == pk)

def updateCP (db : DB) (pk : Nat) (f : ChargePoint → ChargePoint) : DB :=
  { db with charge_points := db.charge_points.map (fun c => if c.id == pk then f c else c) }

def updateSessionRow (db : DB) (pk : Nat) (f : ChargeSession → ChargeSession) : DB :=
  { db with sessions := db.sessions.map (fun s => if s.id == pk then f s else s) }

def updateIntentRow (db : DB) (pk : Nat) (f : ChargingIntent → ChargingIntent) : DB :=
  { db with intents := db.intents.map (fun i => if i.id == pk then f i else i) }

def isOpenOn (s : ChargeSession) (cpPk : Nat) : Bool :=
  s.charge_point_id == cpPk && s.finished_at.isNone

/-- Rows of `WHERE charge_point_id == cp AND finished_at IS NULL`. -/
def openSessionsOf (db : DB) (cpPk : Nat) : List ChargeSession :=
  db.sessions.filter (fun s => isOpenOn s cpPk)

/-- Stable insertion step for a Boolean "should come no later than" order. -/
def insertByB {α : Type} (le : α → α → Bool) (x : α) : List α → List α
  | [] => [x]
  | y :: ys => if le x y then x :: y :: ys else y :: insertByB le x ys

def sortByB {α : Type} (le : α → α → Bool) : List α → List α
  | [] => []
  | x :: xs => insertByB le x (sortByB le xs)

/-- The ordering `ORDER BY started_at DESC`. -/
def sortStartedDesc (l : List ChargeSession) : List ChargeSession :=
  sortByB (fun a b => decide (b.started_at ≤ a.started_at)) l

/-- Python's `sorted(..., key=lambda x: x.ts)` (stable, ascending). -/
def sortSamplesTsAsc (l : List MeterSample) : List MeterSample :=
  sortByB (fun a b => decide (a.ts ≤ b.ts)) l

/-! ## StartTransaction (`app/ocpp/ocpp_ws.py:303` and
`app/ocpp/handlers/transactions.py:48`)

`connectorId` is the `_as_int` of the payload field, `idTag` is the payload
field when it is a string (`none` otherwise), `ts` the
`parse_ocpp_timestamp` result.  The monolithic variant — the one
`app/main.py` wires into `handle_ocpp` — always inserts a fresh row; the
split variant first looks for an open session to reuse. -/

def startTransactionMono (db : DB) (cpId : String) (connectorId : Option Int)
    (idTag : Option String) (ts : Int) (now : Int) : DB × Option Nat :=
  match findCP db cpId with
  | none => (db, none)
  | some cp =>
      let sid := db.next_session_id
      let cs : ChargeSession :=
        { id := sid, charge_point_id := cp.id, connector_id := connectorId,
          ocpp_transaction_id := some (toString sid), user_tag := idTag,
          started_at := ts }
      let db := { db with sessions := db.sessions ++ [cs], next_session_id := sid + 1 }
      let db := updateCP db cp.id (fun c => { c with status := "charging", last_seen_at := some now })
      (db, some sid)

/-- Model of `_find_open_session`: last five open sessions of the station by
`started_at DESC`; exact connector match first, the 0→1 fallback next, and
otherwise the most recent open session regardless of connector. -/
def findOpenSession (db : DB) (cpPk : Nat) (connectorId : Option Int) : Option ChargeSession :=
  let candidates := (sortStartedDesc (openSessionsOf db cpPk)).take 5
  let byConnector : Option ChargeSession :=
    match connectorId with
    | some cid =>
        match candidates.find? (fun cs => cs.connector_id == some cid) with
        | some cs => some cs
        | none =>
            if cid == 0 then candidates.find? (fun cs => cs.connector_id == some 1) else none
    | none => none
  match byConnector with
  | some cs => some cs
  | none => candidates.head?

/-- The careful field fill-ins of the reuse branch (`transactions.py:70–84`).
The `started_at is None` guard of the source is dead here: the column is
NOT NULL, modelled as a non-optional field. -/
def startReuseUpdate (connectorId : Option Int) (idTag : Option String)
    (cs : ChargeSession) : ChargeSession :=
  let cs :=
    if cs.connector_id.isNone && connectorId.isSome then { cs with connector_id := connectorId }
    else cs
  let cs :=
    match cs.user_tag, idTag with
    | none, some t => if t != "" then { cs with user_tag := some t } else cs
    | _, _ => cs
  if (cs.ocpp_transaction_id.getD ("")) == "" then
    { cs with ocpp_transaction_id := some (toString cs.id) }
  else cs

def startTransactionHandlers (db : DB) (cpId : String) (connectorId : Option Int)
    (idTag : Option String) (ts : Int) (now : Int) : DB × Option Nat :=
  match findCP db cpId with
  | none => (db, none)
  | some cp =>
      match findOpenSession db cp.id connectorId with
      | some existing =>
          let db := updateSessionRow db existing.id (startReuseUpdate connectorId idTag)
          let db := updateCP db cp.id (fun c => { c with status := "charging", last_seen_at := some now })
          (db, some existing.id)
      | none =>
          let sid := db.next_session_id
          let cs : ChargeSession :=
            { id := sid, charge_point_id := cp.id, connector_id := connectorId,
              ocpp_transaction_id := some (toString sid), user_tag := idTag,
              started_at := ts }
          let db := { db with sessions := db.sessions ++ [cs], next_session_id := sid + 1 }
          let db := updateCP db cp.id (fun c => { c with status := "charging", last_seen_at := some now })
          (db, some sid)

/-- The CALLRESULT payload `handle_ocpp` builds for `StartTransaction`:
`{"transactionId": int(tx_id or 0), "idTagInfo": {"status": "Accepted"}}`. -/
structure StartTxReply where
  transactionId : Nat
  idTagStatus : String
deriving Repr, DecidableEq

def startTransactionReplyPayload (txId : Option Nat) : StartTxReply :=
  { transactionId := txId.getD 0, idTagStatus := "Accepted" }

/-! ## StopTransaction (`app/ocpp/ocpp_ws.py:348`; the split variant in
`handlers/transactions.py:121` computes energy identically and differs only
in a second lookup by primary key). -/

/-- The energy block of `stop_transaction` (`ocpp_ws.py:387–399`): keep the
session's energy-bearing samples, sort them by timestamp, take the first
and last readings, let the frame's `meterStop` stand in for a missing last
reading, and store `(last − first) / 1000` when that is non-negative. -/
def stopComputedEnergy (sessionSamples : List MeterSample) (meterStop : Option Rat)
    (old : Option Rat) : Option Rat :=
  let ss := sortSamplesTsAsc (sessionSamples.filter (fun m => m.energy_wh_total.isSome))
  let first_wh : Option Rat := ss.head?.bind (fun m => m.energy_wh_total)
  let last_wh : Option Rat := (ss.getLast?).bind (fun m => m.energy_wh_total)
  let last_wh : Option Rat :=
    match last_wh with
    | none => meterStop
    | some v => some v
  match first_wh, last_wh with
  | some f, some l => if f ≤ l then some ((l - f) / 1000) else old
  | _, _ => old

def stopTransactionMono (db : DB) (cpId : String) (transactionId : Option JVal)
    (ts : Int) (meterStop : Option Rat) (now : Int) : DB :=
  match findCP db cpId with
  | none => db
  | some cp =>
      match transactionId with
      | none => db
      | some tx =>
          let txs := pyStrJ tx
          match db.sessions.find?
              (fun s => s.charge_point_id == cp.id && s.ocpp_transaction_id == some txs &&
                s.finished_at.isNone) with
          | none => db
          | some cs =>
              let energy : Option Rat :=
                stopComputedEnergy (db.samples.filter (fun m => m.session_id == some cs.id))
                  meterStop cs.energy_kwh
              let db := updateSessionRow db cs.id
                (fun s => { s with finished_at := some ts, energy_kwh := energy })
              updateCP db cp.id (fun c => { c with status := "available", last_seen_at := some now })

/-! ## StatusNotification (`app/ocpp/handlers/status.py:15`, identical in
`app/ocpp/ocpp_ws.py:191`). -/

def saveStatusNotification (db : DB) (cpId : String) (statusRaw : Option JVal) (now : Int) : DB :=
  let incoming := normalizeCpStatus statusRaw
  match findCP db cpId with
  | none => db
  | some cp =>
      let active := !(openSessionsOf db cp.id).isEmpty
      if active && incoming == "available" then
        updateCP db cp.id (fun c => { c with last_seen_at := some now })
      else
        updateCP db cp.id (fun c => { c with last_seen_at := some now, status := incoming })

/-! ## MeterValues session binding (`app/ocpp/handlers/meter.py:86`,
identical in `app/ocpp/ocpp_ws.py:231`). -/

def optTruthyNat (o : Option Nat) : Bool :=
  match o with
  | some n => n != 0
  | none => false

/-- The row filter of `_find_for_connector`'s query. -/
def openOnConn (cpPk : Nat) (c : Int) (s : ChargeSession) : Bool :=
  s.charge_point_id == cpPk && s.connector_id == some c && s.finished_at.isNone

/-- The row filter of `_find_session_id_by_tx`'s query. -/
def openTxMatch (cpPk : Nat) (txs : String) (s : ChargeSession) : Bool :=
  s.charge_point_id == cpPk && s.ocpp_transaction_id == some txs && s.finished_at.isNone

/-- Model of `_find_for_connector`: newest open session on a given connector. -/
def findForConnectorM (db : DB) (cpPk : Nat) (cid : Option Int) : Option Nat :=
  match cid with
  | none => none
  | some c =>
      ((sortStartedDesc (db.sessions.filter (openOnConn cpPk c))).head?).map (fun s => s.id)

def findActiveSessionId (db : DB) (cpPk : Nat) (connectorId : Option Int) : Option Nat :=
  let sid := findForConnectorM db cpPk connectorId
  if optTruthyNat sid then sid
  else
    let sid2 := if connectorId == some 0 then findForConnectorM db cpPk (some 1) else none
    if optTruthyNat sid2 then sid2
    else ((sortStartedDesc (openSessionsOf db cpPk)).head?).map (fun s => s.id)

def findSessionIdByTx (db : DB) (cpPk : Nat) (transactionId : Option JVal) : Option Nat :=
  match transactionId with
  | none => none
  | some tx =>
      (db.sessions.find? (openTxMatch cpPk (pyStrJ tx))).map (fun s => s.id)

/-- The binding `save_meter_values` performs: the transaction-id lookup is
preferred (tested with `is None`, not truthiness), then
`_find_active_session_id`. -/
def meterBindSessionId (db : DB) (cpPk : Nat) (transactionId : Option JVal)
    (connectorId : Option Int) : Option Nat :=
  match findSessionIdByTx db cpPk transactionId with
  | some sid => some sid
  | none => findActiveSessionId db cpPk connectorId

/-! ## Connection registry and outbound CALLs (`app/ocpp/ocpp_ws.py:23–32,
486–511, 670–680`; the split `app/ocpp/registry.py` has the same
operations).

Transports are opaque handles (`Nat`); the three module-level dictionaries
are association lists with insert-overwrites semantics.  `pending` holds
the installed correlation keys `(cp_id, unique_id)`.  The await in
`_send_call_and_wait` is driven by a `CallOutcome` parameter: the read loop
completed the future with a CALLRESULT payload or a CALLERROR record, the
12-second `asyncio.wait_for` fired, or the awaiting task was cancelled.
Whatever happens, the `finally:` block pops the correlation key. -/

structure GatewayState where
  activeWS : List (String × Nat) := []
  counters : List (String × Nat) := []
  pending : List (String × String) := []
deriving Repr, DecidableEq

/-- Model of `_next_unique_id`: per-station counter seeded at 900 000 000. -/
def nextUniqueId (st : GatewayState) (cpId : String) : GatewayState × String :=
  let cur := ((st.counters.lookup cpId).getD 900000000) + 1
  ({ st with counters := (cpId, cur) :: st.counters.filter (fun kv => kv.1 != cpId) },
   toString cur)

inductive CallOutcome where
  | resultFrame (payload : List (String × String))
  | errorFrame (code desc : String)
  | timeout
  | callerCancelled
deriving Repr, DecidableEq

inductive SendOutcome where
  | noTransport
  | delivered (payload : List (String × String))
  | timedOut
  | cancelled
deriving Repr, DecidableEq

def pendingInsert (key : String × String) (l : List (String × String)) : List (String × String) :=
  key :: l.filter (fun k => k != key)

def pendingErase (key : String × String) (l : List (String × String)) : List (String × String) :=
  l.filter (fun k => k != key)

/-- Model of `_send_call_and_wait`.  A CALLERROR is delivered to the caller as an
ordinary result dictionary, mirroring the read loop's `fut.set_result(err)`. -/
def sendCallAndWait (st : GatewayState) (cpId : String) (outcome : CallOutcome) :
    GatewayState × SendOutcome :=
  match st.activeWS.lookup cpId with
  | none => (st, SendOutcome.noTransport)
  | some _ws =>
      let p := nextUniqueId st cpId
      let st1 := p.1
      let uid := p.2
      let st2 := { st1 with pending := pendingInsert (cpId, uid) st1.pending }
      let res :=
        match outcome with
        | .resultFrame payload => SendOutcome.delivered payload
        | .errorFrame c d =>
            SendOutcome.delivered [("status", "Error"), ("errorCode", c), ("errorDescription", d)]
        | .timeout => SendOutcome.timedOut
        | .callerCancelled => SendOutcome.cancelled
      let st3 := { st2 with pending := pendingErase (cpId, uid) st2.pending }
      (st3, res)

/-- Model of `unregister_ws_if_same` / the registry part of `handle_ocpp`'s
`finally:` block: drop the transport entry when it still points at this
connection.  Nothing else is touched. -/
def unregisterIfSame (st : GatewayState) (cpId : String) (ws : Nat) : GatewayState :=
  if st.activeWS.lookup cpId == some ws then
    { st with activeWS := st.activeWS.filter (fun kv => kv.1 != cpId) }
  else st

/-- The whole `finally:` cleanup of `handle_ocpp` (`cp_id` may still be
unset when the station never identified itself). -/
def gatewayCleanup (st : GatewayState) (cpId : Option String) (ws : Nat) : GatewayState :=
  match cpId with
  | some cp => unregisterIfSame st cp ws
  | none => st

/-! ## Payment bridge (`app/api/routers/payments_stripe.py`) -/

/-- Model of `_generate_stop_code`: `secrets.token_hex(4).upper()`, with the four
bytes drawn from the OS random source passed in as `rnd`. -/
def generateStopCode (rnd : List Nat) : String := strUpper (bytesToHex (rnd.take 4))

/-- Model of `_hash_code`: SHA-256 hex digest of the UTF-8 plaintext. -/
def hashCode (code : String) : String := sha256Hex (utf8Bytes code)

inductive RemoteStartField where
  | absent
  | skippedNoCp
  | res (payload : List (String × String))
deriving Repr, DecidableEq

/-- The dictionary `_ensure_session_and_remote_start` returns. -/
structure EnsureResult where
  session_id : Nat
  created : Bool
  remote_start : RemoteStartField
  stop_code : Option String
deriving Repr, DecidableEq

/-- Model of `_ensure_session_and_remote_start`.  The outbound
`remote_start_transaction` interaction is driven by the `remote`
parameter: either the OCPP reply dictionary or the message of the raised
exception.  The returned list holds the log lines the function writes. -/
def ensureSessionAndRemoteStart (db : DB) (intent : ChargingIntent) (checkoutSessionId : String)
    (rnd : List Nat) (remote : Except String (List (String × String))) (now : Int) :
    DB × EnsureResult × List String :=
  let db := updateIntentRow db intent.id (fun i =>
    { i with status := "paid",
             payment_provider :=
               (match i.payment_provider with
                | some p => if p == "" then some ("stripe") else some p
                | none => some ("stripe")),
             payment_provider_ref := some checkoutSessionId,
             updated_at := now })
  match db.sessions.find? (fun s => s.intent_id == some intent.id) with
  | some existing =>
      (db,
       { session_id := existing.id, created := false, remote_start := RemoteStartField.absent,
         stop_code := none },
       ["Webhook idempotent hit: intent_id=" ++ toString intent.id ++ " session_id=" ++
         toString existing.id])
  | none =>
      let stop_code := generateStopCode rnd
      let stop_hash := hashCode stop_code
      let sid := db.next_session_id
      let cs : ChargeSession :=
        { id := sid, charge_point_id := intent.charge_point_id,
          connector_id := some intent.connector_id, started_at := now,
          anonymous_email := some intent.anonymous_email, intent_id := some intent.id,
          stop_code_hash := some stop_hash }
      let db := { db with sessions := db.sessions ++ [cs], next_session_id := sid + 1 }
      match findCPByPk db intent.charge_point_id with
      | none =>
          (db,
           { session_id := sid, created := true, remote_start := RemoteStartField.skippedNoCp,
             stop_code := some stop_code },
           ["ChargePoint not found for intent_id=" ++ toString intent.id,
            "RemoteStart skipped: missing ChargePoint"])
      | some _cp =>
          let step :=
            match remote with
            | .ok d =>
                (RemoteStartField.res d,
                 "RemoteStart result: intent_id=" ++ toString intent.id ++ " session_id=" ++
                   toString sid)
            | .error m =>
                (RemoteStartField.res [("status", "Error"), ("reason", m)],
                 "RemoteStart failed: intent_id=" ++ toString intent.id ++ " session_id=" ++
                   toString sid ++ " err=" ++ m)
          (db,
           { session_id := sid, created := true, remote_start := step.1,
             stop_code := some stop_code },
           [step.2,
            "STOP_CODE (TEMP LOG): intent_id=" ++ toString intent.id ++ " session_id=" ++
              toString sid ++ " code=" ++ stop_code])

/-! ## Stripe webhook signature verification
(`payments_stripe.py:38–78`). -/

/-- Model of `_parse_stripe_sig_header`: the last `t=` wins (unparseable resets to
`None`), every `v1=` accumulates. -/
def parseStripeSigHeader (sig : String) : Option Int × List String :=
  (strSplitComma sig).foldl
    (fun acc part =>
      let p := strTrim part
      if strStartsWith p ("t=") then
        (match pyIntOfStr (strDrop p 2) with
         | some v => (some v, acc.2)
         | none => (none, acc.2))
      else if strStartsWith p ("v1=") then (acc.1, acc.2 ++ [strDrop p 3])
      else acc)
    (none, [])

/-- Model of `_compute_v1`: HMAC-SHA256 of `"<t>.<raw-body>"` under the secret. -/
def computeV1 (secret : String) (timestamp : Int) (payload : List Nat) : String :=
  hmacSha256Hex (utf8Bytes secret) (utf8Bytes (toString timestamp) ++ [46] ++ payload)

/-- Model of `_verify_stripe_signature` with the default 300-second tolerance;
`none` means the request passes, `some d` the detail of the 400 raised.
`hmac.compare_digest` is a timing-safe string comparison; its value is
plain equality, which is what the model keeps. -/
def verifyStripeSignature (payload : List Nat) (sigHeader : String) (secret : String)
    (now : Int) : Option String :=
  if sigHeader == "" then some ("missing_stripe_signature_header")
  else
    let parsed := parseStripeSigHeader sigHeader
    match parsed.1 with
    | none => some ("invalid_stripe_signature_header")
    | some t =>
        if parsed.2.isEmpty then some ("invalid_stripe_signature_header")
        else if 300 < (now - t).natAbs then some ("stripe_signature_timestamp_out_of_tolerance")
        else
          let expected := computeV1 secret t payload
          if parsed.2.any (fun v => expected == v) then none
          else some ("invalid_stripe_signature")

/-! ## The webhook route (`payments_stripe.py:183–255`). -/

inductive WebhookResp where
  | httpError (code : Nat) (detail : String)
  | ok
  | okHandled (r : EnsureResult)
  | crash
deriving Repr, DecidableEq

/-- The part of `stripe_webhook` that runs on the parsed event (lines
204–255).  `crash` marks the paths where the handler raises
`AttributeError` (`.get` on a non-dict), which FastAPI turns into a 500. -/
def webhookHandleEvent (event : JVal) (db : DB) (now : Int) (rnd : List Nat)
    (remote : Except String (List (String × String))) : DB × WebhookResp × List String :=
  match asObj event with
  | none => (db, WebhookResp.crash, [])
  | some efs =>
    let dataVal := orEmptyObj (jobjGet efs ("data"))
    match asObj dataVal with
    | none => (db, WebhookResp.crash, [])
    | some dfs =>
      let dataObj := orEmptyObj (jobjGet dfs ("object"))
      let isCompleted :=
        match jobjGet efs ("type") with
        | some (JVal.str s) => s == "checkout.session.completed"
        | _ => false
      if !isCompleted then (db, WebhookResp.ok, [])
      else
        match asObj dataObj with
        | none => (db, WebhookResp.crash, [])
        | some ofs =>
          let checkoutSessionId := jobjGet ofs ("id")
          let paymentStatus := jobjGet ofs ("payment_status")
          let metadata := orEmptyObj (jobjGet ofs ("metadata"))
          let psOk :=
            match paymentStatus with
            | none => true
            | some JVal.null => true
            | some (JVal.str s) => s == "paid"
            | some _ => false
          if !psOk then (db, WebhookResp.ok, ["checkout.session.completed but payment_status mismatch"])
          else
            match asObj metadata with
            | none => (db, WebhookResp.crash, [])
            | some mfs =>
              match jobjGet mfs ("intent_id") with
              | none => (db, WebhookResp.ok, ["Missing intent_id in metadata"])
              | some raw =>
                if !(jTruthy raw) then (db, WebhookResp.ok, ["Missing intent_id in metadata"])
                else
                  match pyIntOfJVal raw with
                  | none => (db, WebhookResp.ok, ["Invalid intent_id in metadata"])
                  | some iid =>
                    match db.intents.find? (fun i => ((i.id : Int) == iid)) with
                    | none => (db, WebhookResp.ok, ["Intent not found"])
                    | some intent =>
                      -- `intent.expires_at` is a NOT NULL column, so the
                      -- `intent.expires_at and` guard reduces to the comparison
                      if intent.expires_at < now then
                        (updateIntentRow db intent.id
                           (fun i => { i with status := "expired", updated_at := now }),
                         WebhookResp.ok, ["Intent expired"])
                      else
                        let csid :=
                          match checkoutSessionId with
                          | some v => if jTruthy v then pyStrJ v else ""
                          | none => ""
                        let r := ensureSessionAndRemoteStart db intent csid rnd remote now
                        (r.1, WebhookResp.okHandled r.2.1, r.2.2)

/-- Model of `stripe_webhook` end to end: configuration gate, signature
verification over the raw body, `json.loads`, then the event handling. -/
def stripeWebhook (secretEnv : Option String) (sigHeader : Option String) (body : String)
    (now : Int) (db : DB) (rnd : List Nat)
    (remote : Except String (List (String × String))) : DB × WebhookResp × List String :=
  let secret := secretEnv.getD ("")
  if secret == "" then (db, WebhookResp.httpError 503 ("stripe_webhook_not_configured"), [])
  else
    match verifyStripeSignature (utf8Bytes body) (sigHeader.getD ("")) secret now with
    | some d => (db, WebhookResp.httpError 400 d, [])
    | none =>
        match jsonLoads body with
        | none => (db, WebhookResp.httpError 400 ("invalid_json"), [])
        | some event => webhookHandleEvent event db now rnd remote

/-! ## Intent creation (`app/api/routers/intents.py:41–130`). -/

structure CreateIntentBody where
  charge_point_id : Nat
  connector_id : Int
  email : String
  hold_amount_huf : Int
deriving Repr, DecidableEq

structure CheckoutSessionObj where
  id : Option String := none
  url : Option String := none
deriving Repr, DecidableEq

inductive IntentResp where
  | notFound404
  | notAvailable409 (status : String)
  | checkoutFailed502
  | ok (intent_id : Nat) (checkout_url : Option String) (expires_at : Int)
deriving Repr, DecidableEq

/-- Model of `create_intent`.  The Stripe checkout call is the `stripeCheckout`
parameter (`.error` when `stripe.checkout.Session.create` raises).  The
intent row is committed before that call; on failure `db.rollback()` only
discards the (empty) transaction begun after the commit. -/
def createIntent (db : DB) (body : CreateIntentBody)
    (stripeCheckout : Except String CheckoutSessionObj) (now : Int) : DB × IntentResp :=
  match findCPByPk db body.charge_point_id with
  | none => (db, IntentResp.notFound404)
  | some cp =>
      if strLower (strTrim cp.status) != "available" then (db, IntentResp.notAvailable409 cp.status)
      else
        let iid := db.next_intent_id
        let intent : ChargingIntent :=
          { id := iid, charge_point_id := cp.id, connector_id := body.connector_id,
            anonymous_email := body.email, status := "pending_payment",
            hold_amount_huf := body.hold_amount_huf, expires_at := now + 900,
            created_at := now, updated_at := now }
        let db := { db with intents := db.intents ++ [intent], next_intent_id := iid + 1 }
        match stripeCheckout with
        | .error _e => (db, IntentResp.checkoutFailed502)
        | .ok co =>
            let db := updateIntentRow db iid (fun i =>
              { i with payment_provider := some ("stripe"), payment_provider_ref := co.id,
                       updated_at := now })
            -- `payment_session_id`, `currency`, `amount_huf`, `payment_status`
            -- are not ChargingIntent columns; those assignments persist nothing
            (db, IntentResp.ok iid co.url intent.expires_at)

/-! ## Claim-side specification functions

These follow the wording of the specification sentences under review, to be
compared with the handler embeddings above. -/

/-- Energy at stop as the (amended) specification words it: the first and
last cumulative-energy readings bound to the session, ordered by sample
timestamp; negative arithmetic, or the absence of any energy-bearing
reading, leaves the stored value as it was. -/
def specStopEnergy (sessionSamples : List MeterSample) (old : Option Rat) : Option Rat :=
  let es := (sortSamplesTsAsc (sessionSamples.filter (fun m => m.energy_wh_total.isSome))).filterMap
    (fun m => m.energy_wh_total)
  match es.head?, es.getLast? with
  | some f, some l => if f ≤ l then some ((l - f) / 1000) else old
  | _, _ => old

/-- The four rejection conditions of claim C6, spelled from the claim's
words: header missing, header malformed (no parseable `t=` or no `v1=`
entry), timestamp more than 300 seconds from the server clock, or no `v1`
entry equal to the HMAC-SHA256 of `"<t>.<raw-body>"` under the secret. -/
def claimSig400 (header : Option String) (body : String) (secret : String) (now : Int) : Bool :=
  match header with
  | none => true
  | some h =>
      if h == "" then true
      else
        let parsed := parseStripeSigHeader h
        match parsed.1 with
        | none => true
        | some t =>
            if parsed.2.isEmpty then true
            else if 300 < (now - t).natAbs then true
            else !(parsed.2.any (fun v => computeV1 secret t (utf8Bytes body) == v))

/-! ## Concrete fixtures used by witnesses and counterexamples -/

def exCP : ChargePoint := { id := 1, ocpp_id := "CP1", status := "available" }

def exDB : DB := { charge_points := [exCP] }

def exIntent : ChargingIntent :=
  { id := 1, charge_point_id := 1, connector_id := 1, anonymous_email := "a@b",
    status := "paid", hold_amount_huf := 5000, expires_at := 1000 }

def exBody : CreateIntentBody :=
  { charge_point_id := 1, connector_id := 1, email := "a@b", hold_amount_huf := 5000 }

def exGateway : GatewayState :=
  { activeWS := [("CP1", 7)], counters := [], pending := [("CP1", "900000001")] }

def exSess7 : ChargeSession :=
  { id := 7, charge_point_id := 1, connector_id := some 1, ocpp_transaction_id := some ("7"),
    started_at := 50, meter_start_wh := some 1000, meter_stop_wh := some 5000 }

def exSamp (t : Int) (e : Rat) : MeterSample :=
  { charge_point_id := 1, session_id := some 7, ts := t, energy_wh_total := some e }

def exDBC2 : DB :=
  { charge_points := [exCP], sessions := [exSess7], samples := [exSamp 60 4000, exSamp 70 5000],
    next_session_id := 8 }

/-- The row the concrete stop of session 7 leaves behind. -/
def exStopped : ChargeSession :=
  { exSess7 with
    finished_at := some 80,
    energy_kwh := stopComputedEnergy
      (exDBC2.samples.filter (fun m => m.session_id == some exSess7.id)) (some 6000)
      exSess7.energy_kwh }

def exSess5 : ChargeSession :=
  { id := 5, charge_point_id := 1, connector_id := some 1, started_at := 90,
    intent_id := some 1 }

def exDBC7 : DB :=
  { charge_points := [exCP], sessions := [exSess5], intents := [exIntent],
    next_session_id := 6 }

def exEventC7 : JVal :=
  JVal.obj [("type", JVal.str "checkout.session.completed"),
            ("data", JVal.obj [("object", JVal.obj [("id", JVal.str "cs_x"),
              ("metadata", JVal.obj [("intent_id", JVal.str "1")])])])]

def exCPC8 : ChargePoint := { id := 1, ocpp_id := "CP1", status := "charging" }

def exDBC8 : DB := { charge_points := [exCPC8], sessions := [exSess5] }

def exSOpen1 : ChargeSession :=
  { id := 3, charge_point_id := 1, connector_id := some 1, started_at := 3 }

def exSOpen2 : ChargeSession :=
  { id := 4, charge_point_id := 1, connector_id := some 2, started_at := 4 }

def exDBC9 : DB :=
  { charge_points := [exCP], sessions := [exSOpen1, exSOpen2], next_session_id := 5 }

/-! ## Shared list lemmas -/

theorem mem_insertByB {α : Type} (le : α → α → Bool) (x : α) (l : List α) (a : α) :
    a ∈ insertByB le x l ↔ a = x ∨ a ∈ l := by
  induction l with
  | nil => simp [insertByB]
  | cons y ys ih =>
      simp only [insertByB]
      split
      · simp
      · simp only [List.mem_cons, ih]
        tauto

theorem mem_sortByB {α : Type} (le : α → α → Bool) (l : List α) (a : α) :
    a ∈ sortByB le l ↔ a ∈ l := by
  induction l with
  | nil => simp [sortByB]
  | cons x xs ih => simp [sortByB, mem_insertByB, ih]

theorem insertByB_ne_nil {α : Type} (le : α → α → Bool) (x : α) (l : List α) :
    insertByB le x l ≠ [] := by
  cases l with
  | nil => simp [insertByB]
  | cons y ys =>
      simp only [insertByB]
      split <;> simp

theorem sortByB_eq_nil_iff {α : Type} (le : α → α → Bool) (l : List α) :
    sortByB le l = [] ↔ l = [] := by
  cases l with
  | nil => simp [sortByB]
  | cons x xs => simp [sortByB, insertByB_ne_nil]

theorem mem_of_head?_eq_some {α : Type} {l : List α} {a : α} (h : l.head? = some a) : a ∈ l := by
  cases l with
  | nil => simp at h
  | cons x xs =>
      simp only [List.head?_cons, Option.some.injEq] at h
      simp [h]

theorem filterMap_head?_of_isSome {α β : Type} (f : α → Option β) (l : List α)
    (h : ∀ m ∈ l, (f m).isSome) : (l.filterMap f).head? = l.head?.bind f := by
  cases l with
  | nil => simp
  | cons m ms =>
      have hm := h m (by simp)
      rcases Option.isSome_iff_exists.mp hm with ⟨v, hv⟩
      simp [List.filterMap_cons, hv]

theorem filterMap_getLast?_of_isSome {α β : Type} (f : α → Option β) (l : List α)
    (h : ∀ m ∈ l, (f m).isSome) : (l.filterMap f).getLast? = l.getLast?.bind f := by
  rw [← List.head?_reverse, ← List.head?_reverse, ← List.filterMap_reverse]
  exact filterMap_head?_of_isSome f l.reverse (fun m hm => h m (List.mem_reverse.mp hm))

/-! ## C10 — degraded StartTransaction reply -/

/-- C10: when StartTransaction handling cannot create or find a session —
here, the station identity is unknown in the database, the persistence-
failure path returning `None` the same way — the handler returns `none`,
the store is untouched, and `handle_ocpp` still answers with the payload
`{transactionId: 0, idTagInfo: {status: "Accepted"}}`. -/
theorem C10_theorem (db : DB) (cpId : String) (conn : Option Int) (idTag : Option String)
    (ts now : Int) (h : findCP db cpId = none) :
    startTransactionMono db cpId conn idTag ts now = (db, none) ∧
    startTransactionReplyPayload none = { transactionId := 0, idTagStatus := "Accepted" } := by
  constructor
  · simp [startTransactionMono, h]
  · rfl

/-- C10 witness: a station that never booted gets the degraded Accepted
reply. -/
theorem C10_witness :
    startTransactionMono ({} : DB) ("CPX") (some 1) none 0 0 = (({} : DB), none) ∧
    startTransactionReplyPayload none = { transactionId := 0, idTagStatus := "Accepted" } :=
  C10_theorem ({} : DB) ("CPX") (some 1) none 0 0 (by decide)

/-! ## C5 — outbound CALL lifecycle and transport teardown -/

theorem contains_filter_ne {α : Type} [BEq α] [LawfulBEq α] (l : List α) (key : α) :
    ((l.filter (fun k => k != key)).contains key) = false := by
  induction l with
  | nil => rfl
  | cons x xs ih =>
      by_cases hx : x = key
      · subst hx
        simp [List.filter, ih]
      · have hbx : (x == key) = false := beq_eq_false_iff_ne.mpr hx
        have hkx : (key == x) = false := beq_eq_false_iff_ne.mpr (fun hk => hx hk.symm)
        simp [List.filter, bne, hbx, hkx, ih, List.contains_cons]

/-- C5 counterexample: transport teardown removes the transport entry but
cancels nothing — the pending correlation entry for the station survives
`handle_ocpp`'s `finally:` cleanup untouched. -/
theorem C5_counterexample :
    (gatewayCleanup exGateway (some ("CP1")) 7).activeWS = [] ∧
    (gatewayCleanup exGateway (some ("CP1")) 7).pending = [("CP1", "900000001")] := by
  decide

/-- C5 (amended): for every outbound CALL with a live transport, exactly one
of result delivery, timeout, or cancellation is returned (never the
no-transport error), and the correlation key is gone from the pending table
in all three cases, thanks to the `finally:` pop; transport teardown, on
the other hand, leaves the pending table exactly as it was — waiters are
not cancelled by the unregister path. -/
theorem C5_theorem (st : GatewayState) (cpId : String) (oc : CallOutcome) (ws : Nat)
    (h : (st.activeWS.lookup cpId).isSome) :
    (sendCallAndWait st cpId oc).2 ≠ SendOutcome.noTransport ∧
    ((sendCallAndWait st cpId oc).1.pending.contains (cpId, (nextUniqueId st cpId).2)) = false ∧
    (gatewayCleanup st (some cpId) ws).pending = st.pending := by
  rcases Option.isSome_iff_exists.mp h with ⟨w, hw⟩
  refine ⟨?_, ?_, ?_⟩
  · cases oc <;> simp [sendCallAndWait, hw]
  · simp only [sendCallAndWait, hw]
    cases oc <;>
      simp [pendingErase, pendingInsert, List.contains_cons,
        contains_filter_ne _ (cpId, (nextUniqueId st cpId).2)]
  · simp only [gatewayCleanup, unregisterIfSame]
    split <;> rfl

/-- C5 witness: a timed-out RemoteStart on a live transport ends with the
pending entry removed, and a teardown leaves the table alone. -/
theorem C5_witness :
    (sendCallAndWait exGateway ("CP1") CallOutcome.timeout).2 ≠ SendOutcome.noTransport ∧
    ((sendCallAndWait exGateway ("CP1") CallOutcome.timeout).1.pending.contains
      (("CP1"), (nextUniqueId exGateway ("CP1")).2)) = false ∧
    (gatewayCleanup exGateway (some ("CP1")) 7).pending = exGateway.pending :=
  C5_theorem exGateway ("CP1") CallOutcome.timeout 7 (by decide)

/-! ## C4 — intent creation failure path -/

/-- C4 counterexample: when the Stripe checkout call raises, the caller
does get the 502, but the already-committed Intent keeps status
`pending_payment` and no error string is recorded — the claim's "status is
set to failed with a truncated error string recorded" does not happen. -/
theorem C4_counterexample :
    (createIntent exDB exBody (Except.error ("boom")) 100).2 = IntentResp.checkoutFailed502 ∧
    (createIntent exDB exBody (Except.error ("boom")) 100).1.intents.map
      (fun i => (i.status, i.last_error)) = [("pending_payment", none)] := by
  decide

/-- C4 (amended): a failure of the external payment-session creation is
answered with 502 `stripe_checkout_create_failed`, and the handler's
`db.rollback()` has nothing to undo — the Intent row was committed before
the external call, so it survives with status `pending_payment`; it is not
marked `failed` and `last_error` stays null. -/
theorem C4_theorem (db : DB) (body : CreateIntentBody) (err : String) (now : Int)
    (cp : ChargePoint) (hcp : findCPByPk db body.charge_point_id = some cp)
    (havail : strLower (strTrim cp.status) = "available") :
    (createIntent db body (Except.error err) now).2 = IntentResp.checkoutFailed502 ∧
    (createIntent db body (Except.error err) now).1.intents.length = db.intents.length + 1 ∧
    ∃ i ∈ (createIntent db body (Except.error err) now).1.intents,
      i.id = db.next_intent_id ∧ i.status = "pending_payment" ∧ i.last_error = none ∧
      i.expires_at = now + 900 := by
  have hne : (strLower (strTrim cp.status) != "available") = false := by
    simp [bne, havail]
  refine ⟨?_, ?_, ?_⟩
  · simp [createIntent, hcp, hne]
  · simp [createIntent, hcp, hne]
  · refine ⟨{ id := db.next_intent_id, charge_point_id := cp.id,
              connector_id := body.connector_id, anonymous_email := body.email,
              status := "pending_payment", hold_amount_huf := body.hold_amount_huf,
              expires_at := now + 900, created_at := now, updated_at := now }, ?_, rfl, rfl, rfl, rfl⟩
    simp [createIntent, hcp, hne]

/-- C4 witness: concrete run of the failure path. -/
theorem C4_witness :
    (createIntent exDB exBody (Except.error ("boom")) 100).2 = IntentResp.checkoutFailed502 ∧
    (createIntent exDB exBody (Except.error ("boom")) 100).1.intents.length =
      exDB.intents.length + 1 ∧
    ∃ i ∈ (createIntent exDB exBody (Except.error ("boom")) 100).1.intents,
      i.id = exDB.next_intent_id ∧ i.status = "pending_payment" ∧ i.last_error = none ∧
      i.expires_at = 100 + 900 :=
  C4_theorem exDB exBody ("boom") 100 exCP (by decide) (by decide)

/-! ## C3 — stop-code generation, storage and logging -/

set_option maxRecDepth 8000 in
/-- C3: on a webhook-created session the stop-code is 8 uppercase
hexadecimal characters and only its SHA-256 hex digest is persisted on the
session row — but the handler then writes the plaintext to the log
(`STOP_CODE (TEMP LOG) ... code=...`), directly contradicting the
"never logged" part of the claim and the comment above that very line. -/
theorem C3_theorem :
    (ensureSessionAndRemoteStart exDB exIntent ("cs_123") [0xab, 0xcd, 0x12, 0x34]
        (Except.ok [("status", "Accepted")]) 100).1.sessions.map
      (fun s => s.stop_code_hash) = [some (hashCode ("ABCD1234"))] ∧
    generateStopCode [0xab, 0xcd, 0x12, 0x34] = "ABCD1234" ∧
    String.length ("ABCD1234") = 8 ∧
    (∀ c ∈ ("ABCD1234").data, c.isDigit ∨ (65 ≤ c.toNat ∧ c.toNat ≤ 70)) ∧
    hashCode ("ABCD1234") = "1635c8525afbae58c37bede3c9440844e9143727cc7c160bed665ec378d8a262" ∧
    ("STOP_CODE (TEMP LOG): intent_id=1 session_id=1 code=ABCD1234") ∈
      (ensureSessionAndRemoteStart exDB exIntent ("cs_123") [0xab, 0xcd, 0x12, 0x34]
        (Except.ok [("status", "Accepted")]) 100).2.2 := by
  decide

/-! ## C1 — one open session per (station, connector); StartTransaction reuse -/

theorem findOpenSession_of_no_open (db : DB) (cpPk : Nat) (conn : Option Int)
    (h : openSessionsOf db cpPk = []) : findOpenSession db cpPk conn = none := by
  cases conn <;> simp [findOpenSession, h, sortStartedDesc, sortByB]

theorem startReuseUpdate_charge_point_id (c : Option Int) (i : Option String)
    (s : ChargeSession) : (startReuseUpdate c i s).charge_point_id = s.charge_point_id := by
  simp only [startReuseUpdate]
  (repeat' split) <;> rfl

theorem startReuseUpdate_finished_at (c : Option Int) (i : Option String)
    (s : ChargeSession) : (startReuseUpdate c i s).finished_at = s.finished_at := by
  simp only [startReuseUpdate]
  (repeat' split) <;> rfl

/-- C1 counterexample: under the monolithic `start_transaction` that
`app/main.py` wires into the OCPP endpoint, two consecutive
`StartTransaction` frames on the same (station, connector) leave two open
sessions on that pair — the handler never looks for an existing open
session. -/
theorem C1_counterexample :
    (((startTransactionMono
          (startTransactionMono exDB ("CP1") (some 1) (some ("TAG")) 100 100).1
          ("CP1") (some 1) (some ("TAG")) 110 110).1.sessions.filter
        (fun s => isOpenOn s 1 && s.connector_id == some 1)).length) = 2 := by
  decide

/-- C1 (amended): the reuse rule does hold for the split handler
`handlers/transactions.start_transaction`: starting from a station with no
open session, the first frame creates one session and the second frame
reuses it — the same session id is returned and exactly one open session
remains on the station. -/
theorem C1_theorem (db : DB) (cpId : String) (cp : ChargePoint) (conn : Int)
    (idTag : Option String) (t1 t2 n1 n2 : Int)
    (hcp : findCP db cpId = some cp)
    (hopen : openSessionsOf db cp.id = [])
    (hfresh : ∀ s ∈ db.sessions, s.id ≠ db.next_session_id) :
    (startTransactionHandlers db cpId (some conn) idTag t1 n1).2 = some db.next_session_id ∧
    (startTransactionHandlers
        (startTransactionHandlers db cpId (some conn) idTag t1 n1).1
        cpId (some conn) idTag t2 n2).2 = some db.next_session_id ∧
    (openSessionsOf
        (startTransactionHandlers
          (startTransactionHandlers db cpId (some conn) idTag t1 n1).1
          cpId (some conn) idTag t2 n2).1 cp.id).length = 1 := by
  have hfo := findOpenSession_of_no_open db cp.id (some conn) hopen
  set sid := db.next_session_id with hsid
  set cs1 : ChargeSession :=
    { id := sid, charge_point_id := cp.id, connector_id := some conn,
      ocpp_transaction_id := some (toString sid), user_tag := idTag,
      started_at := t1 } with hcs1
  set db1 : DB :=
    updateCP { db with sessions := db.sessions ++ [cs1], next_session_id := sid + 1 }
      cp.id (fun c => { c with status := "charging", last_seen_at := some n1 }) with hdb1
  have e1 : startTransactionHandlers db cpId (some conn) idTag t1 n1 = (db1, some sid) := by
    simp [startTransactionHandlers, hcp, hfo, hdb1]
  have hsess1 : db1.sessions = db.sessions ++ [cs1] := by
    simp [hdb1, updateCP]
  have hcp1 : findCP db1 cpId =
      some { cp with status := "charging", last_seen_at := some n1 } := by
    simp only [hdb1, updateCP, findCP]
    rw [List.find?_map]
    have hcomp : ((fun c : ChargePoint => c.ocpp_id == cpId) ∘
        (fun c => if c.id == cp.id then { c with status := "charging", last_seen_at := some n1 }
          else c)) = (fun c : ChargePoint => c.ocpp_id == cpId) := by
      funext c
      dsimp
      split <;> rfl
    rw [hcomp]
    have hcp' : db.charge_points.find? (fun c => c.ocpp_id == cpId) = some cp := hcp
    rw [hcp']
    simp
  have hfilter0 : db.sessions.filter (fun s => isOpenOn s cp.id) = [] := hopen
  have hcs1open : isOpenOn cs1 cp.id = true := by
    simp [isOpenOn, hcs1]
  have hopen1 : openSessionsOf db1 cp.id = [cs1] := by
    simp [openSessionsOf, hsess1, List.filter_append, hfilter0, hcs1open]
  have hfo1 : findOpenSession db1 cp.id (some conn) = some cs1 := by
    simp [findOpenSession, hopen1, sortStartedDesc, sortByB, insertByB, hcs1]
  have e2 : startTransactionHandlers db1 cpId (some conn) idTag t2 n2 =
      (updateCP (updateSessionRow db1 cs1.id (startReuseUpdate (some conn) idTag))
        cp.id (fun c => { c with status := "charging", last_seen_at := some n2 }),
       some cs1.id) := by
    simp [startTransactionHandlers, hcp1, hfo1]
  have hmap : (db.sessions ++ [cs1]).map
      (fun s => if s.id == cs1.id then startReuseUpdate (some conn) idTag s else s) =
      db.sessions ++ [startReuseUpdate (some conn) idTag cs1] := by
    rw [List.map_append]
    congr 1
    · rw [List.map_congr_left, List.map_id]
      intro a ha
      have : a.id ≠ sid := hfresh a ha
      simp [hcs1, this]
    · simp
  have huopen : isOpenOn (startReuseUpdate (some conn) idTag cs1) cp.id = true := by
    simp [isOpenOn, startReuseUpdate_charge_point_id, startReuseUpdate_finished_at, hcs1]
  have hopen2 : openSessionsOf
      (updateCP (updateSessionRow db1 cs1.id (startReuseUpdate (some conn) idTag))
        cp.id (fun c => { c with status := "charging", last_seen_at := some n2 })) cp.id =
      [startReuseUpdate (some conn) idTag cs1] := by
    simp [openSessionsOf, updateCP, updateSessionRow, hsess1, hmap, List.filter_append,
      hfilter0, huopen]
    intro a ha
    have hne : a.id ≠ sid := hfresh a ha
    have hcl : isOpenOn a cp.id = false := by
      have h1 := List.filter_eq_nil_iff.mp hfilter0 a ha
      simpa using h1
    simp [hne, hcl]
  refine ⟨by simp [e1], by simp [e1, e2, hcs1], ?_⟩
  simp [e1, e2, hopen2]

/-- C1 witness: the concrete two-frame run through the split handler. -/
theorem C1_witness :
    (startTransactionHandlers exDB ("CP1") (some 1) (some ("TAG")) 100 100).2 =
      some exDB.next_session_id ∧
    (startTransactionHandlers
        (startTransactionHandlers exDB ("CP1") (some 1) (some ("TAG")) 100 100).1
        ("CP1") (some 1) (some ("TAG")) 110 110).2 = some exDB.next_session_id ∧
    (openSessionsOf
        (startTransactionHandlers
          (startTransactionHandlers exDB ("CP1") (some 1) (some ("TAG")) 100 100).1
          ("CP1") (some 1) (some ("TAG")) 110 110).1 exCP.id).length = 1 :=
  C1_theorem exDB ("CP1") exCP 1 (some ("TAG")) 100 110 100 110 (by decide) (by decide)
    (by decide)

/-! ## C2 — energy computation at StopTransaction -/

/-- C2 counterexample: a session with `meter_start_wh = 1000` (and
`meter_stop_wh = 5000`) is stopped with `meterStop = 6000` while carrying
two cumulative-energy samples 4000 and 5000.  The claim's preferred rule
`(meter_stop_wh − meter_start_wh) / 1000` would give 4 (or 5 with the
frame's value); the handler stores 1 — it only ever looks at the samples. -/
theorem C2_counterexample :
    ((stopTransactionMono exDBC2 ("CP1") (some (JVal.str ("7"))) 80 (some 6000) 80).sessions.map
      (fun s => s.energy_kwh)) = [some 1] ∧
    exSess7.meter_start_wh = some 1000 ∧ exSess7.meter_stop_wh = some 5000 ∧
    ¬ ((1 : Rat) = (5000 - 1000) / 1000) ∧ ¬ ((1 : Rat) = (6000 - 1000) / 1000) := by
  have e1 : ((stopTransactionMono exDBC2 ("CP1") (some (JVal.str ("7"))) 80
        (some 6000) 80).sessions.map (fun s => s.energy_kwh)) =
      [some (((5000 : Rat) - 4000) / 1000)] := rfl
  refine ⟨?_, by decide, by decide, by norm_num, by norm_num⟩
  rw [e1]
  norm_num

/-- C2 (amended): for the open session matched by the frame's transaction
id, StopTransaction always sets `finished_at` (the stop succeeds) and
computes `energy_kwh` purely from the session's cumulative-energy
MeterSamples ordered by timestamp — `(last − first) / 1000` when at least
one energy-bearing sample exists and the difference is non-negative, the
previous value (null in reachable states) otherwise.  The stored
`meter_start_wh` / `meter_stop_wh` columns and the frame's `meterStop` do
not enter the computed value: the conclusion does not depend on
`meterStop`. -/
theorem mem_of_getLast?_eq_some {α : Type} {l : List α} {a : α} (h : l.getLast? = some a) :
    a ∈ l := by
  rw [← List.head?_reverse] at h
  exact List.mem_reverse.mp (mem_of_head?_eq_some h)

theorem getLast?_eq_some_of_ne_nil {α : Type} {l : List α} (h : l ≠ []) :
    ∃ a, l.getLast? = some a := by
  cases hl : l.getLast? with
  | some a => exact ⟨a, rfl⟩
  | none =>
      rw [← List.head?_reverse] at hl
      have hrev := List.head?_eq_none_iff.mp hl
      exact absurd (by simpa using hrev) h

theorem stopComputedEnergy_eq_spec (samples : List MeterSample) (meterStop old : Option Rat) :
    stopComputedEnergy samples meterStop old = specStopEnergy samples old := by
  simp only [stopComputedEnergy, specStopEnergy]
  set ss := sortSamplesTsAsc (samples.filter (fun m => m.energy_wh_total.isSome)) with hss
  have hall : ∀ m ∈ ss, (m.energy_wh_total).isSome := by
    intro m hm
    rw [hss, sortSamplesTsAsc] at hm
    have hm' := (mem_sortByB _ _ _).mp hm
    exact (List.mem_filter.mp hm').2
  have hhead := filterMap_head?_of_isSome (fun m => m.energy_wh_total) ss hall
  have hlast := filterMap_getLast?_of_isSome (fun m => m.energy_wh_total) ss hall
  rw [hhead, hlast]
  cases hh : ss.head? with
  | none =>
      have hnil : ss = [] := List.head?_eq_none_iff.mp hh
      simp [hnil]
  | some m =>
      have hne : ss ≠ [] := by
        intro hnil
        rw [hnil] at hh
        simp at hh
      rcases getLast?_eq_some_of_ne_nil hne with ⟨m', hm'⟩
      have hsm := hall m (mem_of_head?_eq_some hh)
      have hsm' := hall m' (mem_of_getLast?_eq_some hm')
      rcases Option.isSome_iff_exists.mp hsm with ⟨f, hf⟩
      rcases Option.isSome_iff_exists.mp hsm' with ⟨l, hl⟩
      simp [hm', hf, hl]

/-- C2 (amended): for the open session matched by the frame's transaction
id, StopTransaction always sets `finished_at` (the stop succeeds) and
computes `energy_kwh` purely from the session's cumulative-energy
MeterSamples ordered by timestamp — `(last − first) / 1000` when at least
one energy-bearing sample exists and the difference is non-negative, the
previous value (null in reachable states) otherwise.  The stored
`meter_start_wh` / `meter_stop_wh` columns and the frame's `meterStop` do
not enter the computed value: the conclusion does not mention `meterStop`. -/
theorem C2_theorem (db : DB) (cpId : String) (cp : ChargePoint) (tx : JVal) (ts now : Int)
    (meterStop : Option Rat) (cs : ChargeSession)
    (hcp : findCP db cpId = some cp)
    (hfind : db.sessions.find? (fun s => s.charge_point_id == cp.id &&
        s.ocpp_transaction_id == some (pyStrJ tx) && s.finished_at.isNone) = some cs) :
    ∀ s ∈ (stopTransactionMono db cpId (some tx) ts meterStop now).sessions,
      s.id = cs.id →
        s.finished_at = some ts ∧
        s.energy_kwh = specStopEnergy (db.samples.filter (fun m => m.session_id == some cs.id))
          cs.energy_kwh := by
  intro s hs hid
  simp only [stopTransactionMono, hcp, hfind, updateCP, updateSessionRow] at hs
  rcases List.mem_map.mp hs with ⟨a, ha, rfl⟩
  by_cases hae : a.id = cs.id
  · have hb : (a.id == cs.id) = true := beq_iff_eq.mpr hae
    rw [hb, if_pos rfl]
    exact ⟨rfl, stopComputedEnergy_eq_spec _ _ _⟩
  · have hb : (a.id == cs.id) = false := beq_eq_false_iff_ne.mpr hae
    rw [hb, if_neg (by simp)] at hid
    exact absurd hid hae

/-- C2 witness: the concrete stop of session 7 follows the sample-based
rule whatever meterStop says. -/
theorem C2_witness :
    exStopped.finished_at = some 80 ∧
    exStopped.energy_kwh = specStopEnergy (exDBC2.samples.filter
      (fun m => m.session_id == some exSess7.id)) exSess7.energy_kwh :=
  C2_theorem exDBC2 ("CP1") exCP (JVal.str ("7")) 80 80 (some 6000) exSess7 (by decide)
    (by decide) exStopped
    (by
      have e : (stopTransactionMono exDBC2 ("CP1") (some (JVal.str ("7"))) 80
          (some 6000) 80).sessions = [exStopped] := rfl
      rw [e]
      exact List.Mem.head _)
    rfl

/-! ## C7 — webhook replay idempotency -/

/-- C7 counterexample: a Session for intent 1 exists, yet replaying the
`checkout.session.completed` event after `expires_at` (1000 < 2000) does
not return that Session's id — the webhook answers the plain `{ok: true}`
and flips the already-paid intent to `expired`.  (It still creates no
second Session.) -/
theorem C7_counterexample :
    (∃ s ∈ exDBC7.sessions, s.intent_id = some exIntent.id) ∧
    (webhookHandleEvent exEventC7 exDBC7 2000 [1, 2, 3, 4] (Except.ok [])).2.1 =
      WebhookResp.ok ∧
    (webhookHandleEvent exEventC7 exDBC7 2000 [1, 2, 3, 4] (Except.ok [])).1.sessions =
      exDBC7.sessions ∧
    (webhookHandleEvent exEventC7 exDBC7 2000 [1, 2, 3, 4] (Except.ok [])).1.intents.map
      (fun i => i.status) = [("expired")] := by
  decide

/-- C7 (amended): `_ensure_session_and_remote_start` is idempotent — when a
Session already references the Intent, it returns that Session's id with
`created = false` and leaves the session table untouched; together with the
webhook's dispatch this means an unexpired replay yields the same Session
id each time, while the route's expiry check makes a late replay answer
without a session id (see the counterexample). -/
theorem C7_theorem (db : DB) (intent : ChargingIntent) (csid : String) (rnd : List Nat)
    (remote : Except String (List (String × String))) (now : Int) (ex : ChargeSession)
    (hex : db.sessions.find? (fun s => s.intent_id == some intent.id) = some ex) :
    (ensureSessionAndRemoteStart db intent csid rnd remote now).1.sessions = db.sessions ∧
    (ensureSessionAndRemoteStart db intent csid rnd remote now).2.1.session_id = ex.id ∧
    (ensureSessionAndRemoteStart db intent csid rnd remote now).2.1.created = false := by
  simp [ensureSessionAndRemoteStart, updateIntentRow, hex]

/-- C7 witness: replaying for intent 1 returns session 5 and adds nothing. -/
theorem C7_witness :
    (ensureSessionAndRemoteStart exDBC7 exIntent ("cs_x") [1, 2, 3, 4]
      (Except.ok []) 500).1.sessions = exDBC7.sessions ∧
    (ensureSessionAndRemoteStart exDBC7 exIntent ("cs_x") [1, 2, 3, 4]
      (Except.ok []) 500).2.1.session_id = exSess5.id ∧
    (ensureSessionAndRemoteStart exDBC7 exIntent ("cs_x") [1, 2, 3, 4]
      (Except.ok []) 500).2.1.created = false :=
  C7_theorem exDBC7 exIntent ("cs_x") [1, 2, 3, 4] (Except.ok []) 500 exSess5 (by decide)

/-! ## C8 — StatusNotification suppression of `available` -/

/-- C8: for a station present in the store, a StatusNotification whose
normalized status is `available` leaves every stored `status` unchanged
whenever the station has an open session; in every other case the
incoming normalized value overwrites the station's stored status. -/
theorem C8_theorem (db : DB) (cpId : String) (statusRaw : Option JVal) (now : Int)
    (cp : ChargePoint) (hcp : findCP db cpId = some cp) :
    (openSessionsOf db cp.id ≠ [] ∧ normalizeCpStatus statusRaw = "available" →
      (saveStatusNotification db cpId statusRaw now).charge_points.map (fun c => c.status) =
        db.charge_points.map (fun c => c.status)) ∧
    (openSessionsOf db cp.id = [] ∨ normalizeCpStatus statusRaw ≠ "available" →
      ∀ c ∈ (saveStatusNotification db cpId statusRaw now).charge_points,
        c.id = cp.id → c.status = normalizeCpStatus statusRaw) := by
  constructor
  · rintro ⟨hopen, hav⟩
    have hcond : (!(openSessionsOf db cp.id).isEmpty &&
        (normalizeCpStatus statusRaw == "available")) = true := by
      simp [hav, List.isEmpty_iff, hopen]
    simp only [saveStatusNotification, hcp, hcond, if_pos, updateCP]
    rw [List.map_map]
    apply List.map_congr_left
    intro a _
    dsimp only [Function.comp]
    split <;> rfl
  · intro hdisj c hc hcid
    have hcond : (!(openSessionsOf db cp.id).isEmpty &&
        (normalizeCpStatus statusRaw == "available")) = false := by
      rcases hdisj with h | h
      · simp [h]
      · simp [beq_eq_false_iff_ne.mpr h]
    simp only [saveStatusNotification, hcp, hcond, updateCP] at hc
    rw [if_neg (by simp)] at hc
    rcases List.mem_map.mp hc with ⟨a, _, rfl⟩
    by_cases hb : a.id = cp.id
    · rw [beq_iff_eq.mpr hb, if_pos rfl]
    · rw [beq_eq_false_iff_ne.mpr hb, if_neg (by simp)] at hcid ⊢
      exact absurd hcid hb

/-- C8 witness: a charging station with an open session keeps
`status = "charging"` when the station reports `" Available "`. -/
theorem C8_witness :
    (openSessionsOf exDBC8 exCPC8.id ≠ [] ∧
        normalizeCpStatus (some (JVal.str (" Available "))) = "available" →
      (saveStatusNotification exDBC8 ("CP1") (some (JVal.str (" Available ")))
          200).charge_points.map (fun c => c.status) =
        exDBC8.charge_points.map (fun c => c.status)) ∧
    (openSessionsOf exDBC8 exCPC8.id = [] ∨
        normalizeCpStatus (some (JVal.str (" Available "))) ≠ "available" →
      ∀ c ∈ (saveStatusNotification exDBC8 ("CP1") (some (JVal.str (" Available ")))
          200).charge_points,
        c.id = exCPC8.id → c.status = normalizeCpStatus (some (JVal.str (" Available ")))) :=
  C8_theorem exDBC8 ("CP1") (some (JVal.str (" Available "))) 200 exCPC8 (by decide)

/-! ## C9 — MeterValues session-binding preference order -/

theorem sortFilter_head_some {l : List ChargeSession} {p : ChargeSession → Bool}
    {s : ChargeSession} (h : (sortStartedDesc (l.filter p)).head? = some s) :
    s ∈ l ∧ p s = true := by
  have hmem := mem_of_head?_eq_some h
  have hmem' := (mem_sortByB _ _ _).mp hmem
  exact List.mem_filter.mp hmem'

theorem sortFilter_head_some_of_exists {l : List ChargeSession} {p : ChargeSession → Bool}
    (h : ∃ s ∈ l, p s = true) : ∃ s, (sortStartedDesc (l.filter p)).head? = some s := by
  cases hh : (sortStartedDesc (l.filter p)).head? with
  | some s => exact ⟨s, rfl⟩
  | none =>
      have h1 : sortStartedDesc (l.filter p) = [] := List.head?_eq_none_iff.mp hh
      have h2 : l.filter p = [] := (sortByB_eq_nil_iff _ _).mp h1
      rcases h with ⟨s, hs, hps⟩
      have : s ∈ l.filter p := List.mem_filter.mpr ⟨hs, hps⟩
      rw [h2] at this
      simp at this

theorem ffc_some {db : DB} {cpPk : Nat} {c : Int} {sid : Nat}
    (h : findForConnectorM db cpPk (some c) = some sid) :
    ∃ s ∈ db.sessions, sid = s.id ∧ openOnConn cpPk c s = true := by
  simp only [findForConnectorM, Option.map_eq_some'] at h
  rcases h with ⟨s, hh, rfl⟩
  rcases sortFilter_head_some hh with ⟨hmem, hp⟩
  exact ⟨s, hmem, rfl, hp⟩

theorem ffc_some_of_exists {db : DB} {cpPk : Nat} {c : Int}
    (h : ∃ s ∈ db.sessions, openOnConn cpPk c s = true) :
    ∃ sid, findForConnectorM db cpPk (some c) = some sid := by
  rcases sortFilter_head_some_of_exists h with ⟨s, hs⟩
  exact ⟨s.id, by simp [findForConnectorM, hs]⟩

theorem openOnConn_open {cpPk : Nat} {c : Int} {s : ChargeSession}
    (h : openOnConn cpPk c s = true) : isOpenOn s cpPk = true := by
  simp only [openOnConn, Bool.and_eq_true] at h
  simp [isOpenOn, h.1.1, h.2]

theorem openTxMatch_open {cpPk : Nat} {txs : String} {s : ChargeSession}
    (h : openTxMatch cpPk txs s = true) : isOpenOn s cpPk = true := by
  simp only [openTxMatch, Bool.and_eq_true] at h
  simp [isOpenOn, h.1.1, h.2]

theorem ffc_none_of_all {db : DB} {cpPk : Nat} {c : Int}
    (h : ∀ s ∈ db.sessions, openOnConn cpPk c s = false) :
    findForConnectorM db cpPk (some c) = none := by
  cases hh : findForConnectorM db cpPk (some c) with
  | none => rfl
  | some sid =>
      rcases ffc_some hh with ⟨s, hs, rfl, hp⟩
      rw [h s hs] at hp
      exact absurd hp (by simp)

/-- C9: the MeterValues batch binds to a session by the code's preference
order — open session matching the frame's transaction id first; else an
open session on the frame's connector; else, for connector 0, the open
session on connector 1; else any open session of the station; and no
binding only when the station has no open session at all. -/
theorem C9_theorem (db : DB) (cpPk : Nat) (tx : Option JVal) (conn : Option Int)
    (hids : ∀ s ∈ db.sessions, s.id ≠ 0) :
    (∀ v, tx = some v → (∃ s ∈ db.sessions, openTxMatch cpPk (pyStrJ v) s = true) →
      ∃ s ∈ db.sessions, meterBindSessionId db cpPk tx conn = some s.id ∧
        openTxMatch cpPk (pyStrJ v) s = true) ∧
    (findSessionIdByTx db cpPk tx = none →
      (∀ c, conn = some c → (∃ s ∈ db.sessions, openOnConn cpPk c s = true) →
        ∃ s ∈ db.sessions, meterBindSessionId db cpPk tx conn = some s.id ∧
          openOnConn cpPk c s = true) ∧
      (conn = some 0 → (∀ s ∈ db.sessions, openOnConn cpPk 0 s = false) →
        (∃ s ∈ db.sessions, openOnConn cpPk 1 s = true) →
        ∃ s ∈ db.sessions, meterBindSessionId db cpPk tx conn = some s.id ∧
          openOnConn cpPk 1 s = true) ∧
      ((∃ s ∈ db.sessions, isOpenOn s cpPk = true) →
        ∃ s ∈ db.sessions, meterBindSessionId db cpPk tx conn = some s.id ∧
          isOpenOn s cpPk = true) ∧
      ((∀ s ∈ db.sessions, isOpenOn s cpPk = false) →
        meterBindSessionId db cpPk tx conn = none)) := by
  constructor
  · rintro v rfl hex
    have hsome : (db.sessions.find? (openTxMatch cpPk (pyStrJ v))).isSome := by
      rw [List.find?_isSome]
      exact hex
    rcases Option.isSome_iff_exists.mp hsome with ⟨s1, hs1⟩
    refine ⟨s1, List.mem_of_find?_eq_some hs1, ?_, List.find?_some hs1⟩
    simp [meterBindSessionId, findSessionIdByTx, hs1]
  · intro hnone
    have hred : meterBindSessionId db cpPk tx conn = findActiveSessionId db cpPk conn := by
      simp [meterBindSessionId, hnone]
    refine ⟨?_, ?_, ?_, ?_⟩
    · rintro c rfl hex
      rcases ffc_some_of_exists hex with ⟨sid, hsid⟩
      rcases ffc_some hsid with ⟨s, hs, rfl, hp⟩
      have htr : optTruthyNat (some s.id) = true := by
        simp [optTruthyNat, hids s hs]
      refine ⟨s, hs, ?_, hp⟩
      rw [hred]
      simp [findActiveSessionId, hsid, htr]
    · rintro rfl hno0 hex1
      have h0 : findForConnectorM db cpPk (some 0) = none :=
        ffc_none_of_all hno0
      rcases ffc_some_of_exists hex1 with ⟨sid1, hsid1⟩
      rcases ffc_some hsid1 with ⟨s, hs, rfl, hp⟩
      have htr : optTruthyNat (some s.id) = true := by
        simp [optTruthyNat, hids s hs]
      refine ⟨s, hs, ?_, hp⟩
      rw [hred]
      simp only [findActiveSessionId, h0, optTruthyNat, hsid1]
      simp
      intro hz
      exact absurd hz (hids s hs)
    · intro hexopen
      rw [hred]
      unfold findActiveSessionId
      cases hc1 : findForConnectorM db cpPk conn with
      | some sid =>
          rcases conn with _ | c
          · simp [findForConnectorM] at hc1
          · rcases ffc_some hc1 with ⟨s, hs, rfl, hp⟩
            have htr : optTruthyNat (some s.id) = true := by
              simp [optTruthyNat, hids s hs]
            exact ⟨s, hs, by simp [htr], openOnConn_open hp⟩
      | none =>
          simp only [optTruthyNat, if_neg, Bool.false_eq_true, not_false_eq_true]
          cases hc2 : (if conn == some 0 then findForConnectorM db cpPk (some 1) else none) with
          | some sid2 =>
              have hff1 : findForConnectorM db cpPk (some 1) = some sid2 := by
                by_cases hz : conn == some 0
                · rwa [if_pos hz] at hc2
                · rw [if_neg hz] at hc2
                  exact absurd hc2 (by simp)
              rcases ffc_some hff1 with ⟨s, hs, rfl, hp⟩
              have htr : optTruthyNat (some s.id) = true := by
                simp [optTruthyNat, hids s hs]
              refine ⟨s, hs, ?_, openOnConn_open hp⟩
              simp [hc2]
              intro hz
              exact absurd hz (hids s hs)
          | none =>
              have hh := sortFilter_head_some_of_exists (p := fun s => isOpenOn s cpPk) hexopen
              rcases hh with ⟨s, hhead⟩
              rcases sortFilter_head_some hhead with ⟨hs, hp⟩
              refine ⟨s, hs, ?_, hp⟩
              simp [hc2, openSessionsOf, hhead]
    · intro hall
      rw [hred]
      unfold findActiveSessionId
      have hcn : findForConnectorM db cpPk conn = none := by
        rcases conn with _ | c
        · rfl
        · exact ffc_none_of_all (fun s hs => by
            cases hoc : openOnConn cpPk c s with
            | false => rfl
            | true => exact absurd (openOnConn_open hoc) (by simp [hall s hs]))
      have hc1 : findForConnectorM db cpPk (some 1) = none :=
        ffc_none_of_all (fun s hs => by
          cases hoc : openOnConn cpPk 1 s with
          | false => rfl
          | true => exact absurd (openOnConn_open hoc) (by simp [hall s hs]))
      have hfe : db.sessions.filter (fun s => isOpenOn s cpPk) = [] := by
        rw [List.filter_eq_nil_iff]
        intro s hs
        simp [hall s hs]
      simp [hcn, hc1, optTruthyNat, openSessionsOf, hfe, sortStartedDesc, sortByB]

/-- C9 witness: a batch with `connectorId = 0` and no transaction id on a
station with open sessions on connectors 1 and 2 exercises the preference
chain (and in particular binds to the connector-1 session). -/
theorem C9_witness :
    (∀ v, (none : Option JVal) = some v →
      (∃ s ∈ exDBC9.sessions, openTxMatch 1 (pyStrJ v) s = true) →
      ∃ s ∈ exDBC9.sessions, meterBindSessionId exDBC9 1 none (some 0) = some s.id ∧
        openTxMatch 1 (pyStrJ v) s = true) ∧
    (findSessionIdByTx exDBC9 1 none = none →
      (∀ c, (some (0 : Int)) = some c →
        (∃ s ∈ exDBC9.sessions, openOnConn 1 c s = true) →
        ∃ s ∈ exDBC9.sessions, meterBindSessionId exDBC9 1 none (some 0) = some s.id ∧
          openOnConn 1 c s = true) ∧
      ((some (0 : Int)) = some 0 → (∀ s ∈ exDBC9.sessions, openOnConn 1 0 s = false) →
        (∃ s ∈ exDBC9.sessions, openOnConn 1 1 s = true) →
        ∃ s ∈ exDBC9.sessions, meterBindSessionId exDBC9 1 none (some 0) = some s.id ∧
          openOnConn 1 1 s = true) ∧
      ((∃ s ∈ exDBC9.sessions, isOpenOn s 1 = true) →
        ∃ s ∈ exDBC9.sessions, meterBindSessionId exDBC9 1 none (some 0) = some s.id ∧
          isOpenOn s 1 = true) ∧
      ((∀ s ∈ exDBC9.sessions, isOpenOn s 1 = false) →
        meterBindSessionId exDBC9 1 none (some 0) = none)) :=
  C9_theorem exDBC9 1 none (some 0) (by decide)

/-! ## C6 — webhook 400 conditions -/

/-- The signature verifier rejects exactly when the claim's four conditions
say it should: the embedded check and the claim-side wording agree. -/
theorem verify_isSome_eq_claim (header : Option String) (body secret : String) (now : Int) :
    (verifyStripeSignature (utf8Bytes body) (header.getD ("")) secret now).isSome =
      claimSig400 header body secret now := by
  cases header with
  | none => simp [verifyStripeSignature, claimSig400]
  | some h =>
      simp only [Option.getD, verifyStripeSignature, claimSig400]
      by_cases hh : (h == "") = true
      · simp [hh]
      · rw [Bool.not_eq_true] at hh
        rw [hh]
        simp only [Bool.false_eq_true, if_false]
        cases hp : (parseStripeSigHeader h).1 with
        | none => simp
        | some t =>
            by_cases he : (parseStripeSigHeader h).2.isEmpty
            · simp [he]
            · simp only [he, Bool.false_eq_true, if_false]
              by_cases hskew : 300 < (now - t).natAbs
              · simp [hskew]
              · simp only [hskew, if_false]
                by_cases hm : ((parseStripeSigHeader h).2.any
                    (fun v => computeV1 secret t (utf8Bytes body) == v)) = true
                · simp [hm]
                · rw [Bool.not_eq_true] at hm
                  simp [hm]

/-- After a valid signature and a successfully parsed JSON object body, the
webhook never answers 400: every remaining exit is a 200 shape or the
`AttributeError` crash. -/
theorem webhookHandleEvent_not_400 (event : JVal) (db : DB) (now : Int) (rnd : List Nat)
    (remote : Except String (List (String × String))) (c : Nat) (d : String) :
    (webhookHandleEvent event db now rnd remote).2.1 ≠ WebhookResp.httpError c d := by
  intro hEq
  unfold webhookHandleEvent at hEq
  dsimp only at hEq
  (repeat' split at hEq) <;> simp_all

/-- C6 (amended): assuming the webhook secret is configured and the body
either fails JSON parsing or parses to a JSON object, the webhook answers
HTTP 400 — leaving the store untouched — exactly when the claim's four
signature conditions hold, or when the signature is valid but the body is
not valid JSON (then the detail is `invalid_json`).  The v1 comparison is
`hmac.compare_digest`, modelled by its value, string equality. -/
theorem C6_theorem (secret : String) (header : Option String) (body : String) (now : Int)
    (db : DB) (rnd : List Nat) (remote : Except String (List (String × String)))
    (hs : secret ≠ "")
    (hbody : jsonLoads body = none ∨ ∃ fs, jsonLoads body = some (JVal.obj fs)) :
    ((∃ d, (stripeWebhook (some secret) header body now db rnd remote).2.1 =
        WebhookResp.httpError 400 d) ↔
      (claimSig400 header body secret now = true ∨
        (claimSig400 header body secret now = false ∧ jsonLoads body = none))) ∧
    (∀ d, (stripeWebhook (some secret) header body now db rnd remote).2.1 =
        WebhookResp.httpError 400 d →
      (stripeWebhook (some secret) header body now db rnd remote).1 = db) := by
  have hsb : (secret == "") = false := beq_eq_false_iff_ne.mpr hs
  have hcl := verify_isSome_eq_claim header body secret now
  cases hv : verifyStripeSignature (utf8Bytes body) (header.getD ("")) secret now with
  | some d0 =>
      rw [hv] at hcl
      simp only [Option.isSome_some] at hcl
      constructor
      · constructor
        · intro _
          exact Or.inl hcl.symm
        · intro _
          exact ⟨d0, by simp [stripeWebhook, hsb, hv]⟩
      · intro d _
        simp [stripeWebhook, hsb, hv]
  | none =>
      rw [hv] at hcl
      simp only [Option.isSome_none] at hcl
      cases hj : jsonLoads body with
      | none =>
          constructor
          · constructor
            · intro _
              exact Or.inr ⟨hcl.symm, rfl⟩
            · intro _
              exact ⟨("invalid_json"), by simp [stripeWebhook, hsb, hv, hj]⟩
          · intro d _
            simp [stripeWebhook, hsb, hv, hj]
      | some ev =>
          rcases hbody with hb | ⟨fs, hb⟩
          · rw [hj] at hb
            exact absurd hb (by simp)
          · rw [hj] at hb
            injection hb with hb
            subst hb
            have hno := fun d =>
              webhookHandleEvent_not_400 (JVal.obj fs) db now rnd remote 400 d
            constructor
            · constructor
              · rintro ⟨d, hd⟩
                rw [stripeWebhook] at hd
                simp only [Option.getD_some, hsb, Bool.false_eq_true, if_false, hv, hj] at hd
                exact absurd hd (hno d)
              · rintro (h | ⟨_, h⟩)
                · rw [← hcl] at h
                  simp at h
                · simp [hj] at h
            · intro d hd
              rw [stripeWebhook] at hd
              simp only [Option.getD_some, hsb, Bool.false_eq_true, if_false, hv, hj] at hd
              exact absurd hd (hno d)

set_option maxRecDepth 20000 in
/-- C6 counterexample: a request carrying a perfectly valid signature
(`v1` is the real HMAC-SHA256 of `"1000.x"` under secret `"s"`, zero clock
skew) whose body `"x"` is not JSON is rejected with HTTP 400
(`invalid_json`) although none of the claim's four conditions holds. -/
theorem C6_counterexample :
    (stripeWebhook (some ("s"))
        (some ("t=1000,v1=d82de0833a8c0d647fb43ab3d2991cb7359e169dbf8bd7aa0d5efcd773abebdb"))
        ("x") 1000 exDB [] (Except.ok [])).2.1 = WebhookResp.httpError 400 ("invalid_json") ∧
    claimSig400
      (some ("t=1000,v1=d82de0833a8c0d647fb43ab3d2991cb7359e169dbf8bd7aa0d5efcd773abebdb"))
      ("x") ("s") 1000 = false := by
  decide

/-- C6 witness: the amended equivalence at a concrete input (missing
header, configured secret). -/
theorem C6_witness :
    ((∃ d, (stripeWebhook (some ("s")) none ("x") 1000 exDB [] (Except.ok [])).2.1 =
        WebhookResp.httpError 400 d) ↔
      (claimSig400 none ("x") ("s") 1000 = true ∨
        (claimSig400 none ("x") ("s") 1000 = false ∧ jsonLoads ("x") = none))) ∧
    (∀ d, (stripeWebhook (some ("s")) none ("x") 1000 exDB [] (Except.ok [])).2.1 =
        WebhookResp.httpError 400 d →
      (stripeWebhook (some ("s")) none ("x") 1000 exDB [] (Except.ok [])).1 = exDB) :=
  C6_theorem ("s") none ("x") 1000 exDB [] (Except.ok []) (by decide) (Or.inl rfl)

end Ocpp
